import Mathlib

/-!
Verification of the romlib binary-structure engine (`src/romlib/binary.py`)
against its natural-language specification.

The Python source is shallowly embedded below.  Python exceptions are made
explicit with an `Except PyError` result type; machine integers are `Nat`;
the float produced by Python's true division in `StructDef.bytes` is
embedded as `ℚ` (exact for the magnitudes involved).  List comprehensions
that can raise are embedded as explicit recursions that propagate the first
error, preserving the source's left-to-right evaluation order.
-/

namespace Romlib

/-- Exceptions that the embedded code can raise.  Each constructor records
the Python exception class (and the offending name, where one exists). -/
inductive PyError where
  /-- `NameError`: the named identifier is not in scope. -/
  | nameError (missing : String)
  /-- `TypeError` with its message. -/
  | typeError (msg : String)
  /-- `AttributeError`: object of class `obj` has no attribute `attr`. -/
  | attributeError (obj attr : String)
  /-- `IndexError`, e.g. `""[0]`. -/
  | indexError
  /-- `StopIteration` from `next()` on an exhausted iterator. -/
  | stopIteration
  /-- bitstring `CreationError`: a value does not fit its declared token. -/
  | creationError
  /-- bitstring `InterpretError`: `.bytes` on a non-whole-byte sequence. -/
  | interpretError
  /-- `FileExistsError` from `open(fname, "x")`. -/
  | fileExistsError
  deriving DecidableEq, Repr

/-- Modelled from the spec: `util.tobits` lives in `romlib/util.py`, which is
not among the provided sources.  Spec §3/§6: a size is "a raw bit count or a
size-with-unit notation that this layer must normalize to bits".  We model
the two notations as a raw bit count and a byte count (normalized to 8·n). -/
inductive SizeSpec where
  | bits (n : Nat)
  | inBytes (n : Nat)
  deriving DecidableEq, Repr

/-- Modelled from the spec: normalization of a declared size to bits. -/
def tobits : SizeSpec → Nat
  | .bits n => n
  | .inBytes n => 8 * n

/-- A raw field descriptor as read from a structure schema file
(`id, label, type, size, display, ...` — binary.py line 27 of the spec's §6;
the remaining columns `tags/order/comment` carry no behavior in the
embedded code and are omitted).  `type` is spelled `ftype` (keyword). -/
structure FieldSpec where
  id : String
  label : String
  ftype : String
  size : SizeSpec
  display : String
  deriving DecidableEq, Repr

/-- A storage field after `StructDef.__init__` normalized its size to bits
(binary.py lines 304-305: `f['size'] = tobits(f['size'])`). -/
structure Field where
  id : String
  label : String
  ftype : String
  size : Nat
  display : String
  deriving DecidableEq, Repr

/-- Python `str.isalnum`: true iff the string is nonempty and every
character is alphanumeric (ASCII model of the Unicode predicate). -/
def pyIsAlnum (s : String) : Bool :=
  !s.data.isEmpty && s.data.all Char.isAlphanum

/-- `StructDef.isdata` (binary.py lines 337-339): `field['id'].isalnum()`. -/
def StructDef.isdata (f : FieldSpec) : Bool :=
  pyIsAlnum f.id

/-- `StructDef.ispointer` (binary.py lines 341-343):
`field['id'][0] == "*"`.  Subscripting the empty string raises
`IndexError`, so the test is partial. -/
def StructDef.ispointer (f : FieldSpec) : Except PyError Bool :=
  match f.id.data with
  | [] => .error .indexError
  | c :: _ => .ok (c == '*')

/-- The total Boolean the pointer test computes on a nonempty id. -/
def ispointerB (f : FieldSpec) : Bool :=
  match f.id.data with
  | [] => false
  | c :: _ => c == '*'

/-- The state a `StructDef` would carry after `__init__` lines 300-305:
the declaration-ordered pointer fields (sizes untouched) and the
declaration-ordered storage fields (sizes normalized to bits). -/
structure StructDef where
  name : String
  fields : List Field
  pointers : List FieldSpec
  deriving DecidableEq, Repr

/-- The list comprehension `[f for f in fields if self.ispointer(f)]`
(binary.py line 302), evaluated left to right; the first field with an
empty id raises `IndexError`. -/
def filterPointers : List FieldSpec → Except PyError (List FieldSpec)
  | [] => .ok []
  | f :: fs =>
    match StructDef.ispointer f with
    | .error e => .error e
    | .ok b =>
      match filterPointers fs with
      | .error e => .error e
      | .ok rest => .ok (if b then f :: rest else rest)

/-- Size normalization applied to each storage field
(binary.py lines 304-305). -/
def normalizeField (f : FieldSpec) : Field :=
  ⟨f.id, f.label, f.ftype, tobits f.size, f.display⟩

/-- The partition phase of `StructDef.__init__` (binary.py lines 300-305):
pointers first (line 302), then storage fields (line 303, `isdata` is
total), then size normalization of the storage fields. -/
def StructDef.partitionFields (fields : List FieldSpec) :
    Except PyError (List FieldSpec × List Field) :=
  match filterPointers fields with
  | .error e => .error e
  | .ok ptrs => .ok (ptrs, (fields.filter StructDef.isdata).map normalizeField)

/-- `StructDef.__init__` (binary.py lines 293-310).  After the partition
phase, line 309 evaluates `namedtuple(name, ...)`, but `namedtuple` is
never imported in binary.py (line 10 imports only `OrderedDict` from
`collections`), so construction always raises
`NameError: name 'namedtuple' is not defined`. -/
def StructDef.make (name : String) (fields : List FieldSpec) :
    Except PyError StructDef :=
  match StructDef.partitionFields fields with
  | .error e => .error e
  | .ok _ => .error (.nameError "namedtuple")

/-- The `(id, label)` projection of a field dict; `_output_fields` and the
dump header loop consume only these two keys. -/
def fieldPair (f : Field) : String × String := (f.id, f.label)

/-- The `(id, label)` projection of a raw (pointer) field dict. -/
def specPair (f : FieldSpec) : String × String := (f.id, f.label)

/-- `StructDef.isname` (binary.py lines 345-347):
`field['label'] == "Name"`, on the `(id, label)` projection. -/
def StructDef.isname (pr : String × String) : Bool :=
  pr.2 == "Name"

/-- `allfields = self.fields + self.pointers` (binary.py line 331),
projected to `(id, label)` pairs. -/
def StructDef.allpairs (σ : StructDef) : List (String × String) :=
  σ.fields.map fieldPair ++ σ.pointers.map specPair

/-- `StructDef._output_fields` (binary.py lines 329-335).
`name = next(f for f in allfields if self.isname(f))` has no default, so a
schema with no Name-labeled field raises `StopIteration`, embedded as
`none`.  Every Name-labeled field is filtered out of the storage and
pointer remainders, not just the emitted one. -/
def StructDef.output_fields (σ : StructDef) : Option (List (String × String)) :=
  match σ.allpairs.find? StructDef.isname with
  | none => none
  | some nm =>
    some (nm ::
      ((σ.fields.map fieldPair).filter (fun pr => !StructDef.isname pr)
        ++ (σ.pointers.map specPair).filter (fun pr => !StructDef.isname pr)))

/-- `StructDef.bits` (binary.py lines 354-357):
`sum(f['size'] for f in self.fields)`. -/
def StructDef.bits (σ : StructDef) : Nat :=
  (σ.fields.map Field.size).sum

/-- `StructDef.bytes` (binary.py lines 349-352):
`sum(f['size'] / 8 for f in self.fields)` — Python 3 true division, so the
result is the exact quotient (a float, embedded as `ℚ`), not rounded. -/
def StructDef.bytes (σ : StructDef) : ℚ :=
  (σ.fields.map (fun f => (f.size : ℚ) / 8)).sum

/-- `StructDef.changeset` (binary.py lines 359-371).  The loop body's first
statement is `size = self[fid]['size']`, but `StructDef` derives from
`object` and defines no `__getitem__`, so any nonempty `item` raises
`TypeError: 'StructDef' object is not subscriptable`.  For an empty `item`
the loop body never runs: `Bits(", ".join([]))` is the empty bit sequence,
whose `.bytes` is empty, so the returned dict is empty. -/
def StructDef.changeset (_σ : StructDef) (item : List (String × String))
    (_offset : Nat) : Except PyError (List (Nat × Nat)) :=
  match item with
  | [] => .ok []
  | _ :: _ => .error (.typeError "StructDef object is not subscriptable")

/-- Big-endian bit expansion of a value at a declared width: bit `i` of the
output (MSB first) is `testBit v (width - 1 - i)`.  This is the packing the
bitstring library uses for a `uint:n=v` token. -/
def toBitsBE (width v : Nat) : List Bool :=
  (List.range width).map (fun i => v.testBit (width - 1 - i))

/-- Assemble one byte from eight bits, MSB first. -/
def byteOfBits (bs : List Bool) : Nat :=
  bs.foldl (fun acc b => 2 * acc + (if b then 1 else 0)) 0

/-- Split a bit sequence into 8-bit groups (the last may be short). -/
def chunk8 : List Bool → List (List Bool)
  | b0 :: b1 :: b2 :: b3 :: b4 :: b5 :: b6 :: b7 :: rest =>
    [b0, b1, b2, b3, b4, b5, b6, b7] :: chunk8 rest
  | [] => []
  | leftover => [leftover]

/-- The bitstring `.bytes` property: raises `InterpretError` unless the
sequence is a whole number of bytes. -/
def bytesOfBits (bs : List Bool) : Except PyError (List Nat) :=
  if bs.length % 8 = 0 then .ok ((chunk8 bs).map byteOfBits)
  else .error .interpretError

/-- `getattr(self.data, field['id'])` on the data record, embedded as an
association-list lookup; a missing attribute raises `AttributeError`. -/
def lookupAttr (data : List (String × Nat)) (id : String) : Option Nat :=
  data.lookup id

/-- The field loop of `Struct.to_bytes` (binary.py lines 270-275): for each
storage field in declaration order, look up its value and append the
bitstring token `type:size=value`.  Only the `uint` codec of the external
bitstring library is modelled (the only codec the claims exercise); a
value outside `[0, 2^size)` raises `CreationError`, as bitstring does. -/
def packFields (data : List (String × Nat)) : List Field → Except PyError (List Bool)
  | [] => .ok []
  | f :: fs =>
    match lookupAttr data f.id with
    | none => .error (.attributeError "Struct" f.id)
    | some v =>
      if f.ftype = "uint" then
        if v < 2 ^ f.size then
          match packFields data fs with
          | .error e => .error e
          | .ok rest => .ok (toBitsBE f.size v ++ rest)
        else .error .creationError
      else .error .creationError

/-- `Struct.to_bytes` (binary.py lines 264-276): pack every storage field
in declaration order, then take `.bytes` of the assembled `Bits`. -/
def Struct.to_bytes (σ : StructDef) (data : List (String × Nat)) :
    Except PyError (List Nat) :=
  match packFields data σ.fields with
  | .error e => .error e
  | .ok bs => bytesOfBits bs

/-- `Struct.read` (binary.py lines 231-247).  After the optional seek and
the construction of `fmt` (both effect-free here), line 244 evaluates
`bitstream.readlist(fmt)` — but the parameter is named `stream` and no
`bitstream` is in scope, so every call raises
`NameError: name 'bitstream' is not defined`.  (Lines 245-247 would
additionally call two-argument `setattr(self.data, value)`, a `TypeError`,
were they ever reached.) -/
def Struct.read (σ : StructDef) (_stream : List Nat) (_offset : Option Nat) :
    Except PyError (List (String × Nat)) :=
  let _fmt := σ.fields.map (fun f => f.ftype ++ ":" ++ toString f.size)
  .error (.nameError "bitstream")

/-- `Address` (binary.py lines 20-54): a wrapped canonical ROM offset. -/
structure Address where
  _address : Nat
  deriving DecidableEq, Repr

/-- `Address._from_offset` (binary.py lines 45-48). -/
def Address._from_offset (offset : Nat) : Nat :=
  offset

/-- `Address._from_hirom` (binary.py lines 50-54): fold all hirom mirrors
into the base 4 MiB range. -/
def Address._from_hirom (offset : Nat) : Nat :=
  offset % 0x400000

/-- `Address.__init__` (binary.py lines 23-26):
`getattr(self, "_from_" + schema)` resolves the converter; an unknown
schema raises `AttributeError`. -/
def Address.init (offset : Nat) (schema : String) : Except PyError Address :=
  if schema = "offset" then .ok ⟨Address._from_offset offset⟩
  else if schema = "hirom" then .ok ⟨Address._from_hirom offset⟩
  else .error (.attributeError "Address" ("_from_" ++ schema))

/-- `Address.rom` (binary.py lines 28-31). -/
def Address.rom (a : Address) : Nat :=
  a._address

/-- `Address.hirom` (binary.py lines 33-43): `self._address | mirror`.  As
a property its getter is always invoked with the default
`mirror=0xC00000`, so the mirror is fixed here. -/
def Address.hirom (a : Address) : Nat :=
  a._address ||| 0xC00000

/-- An array registry row after `ArrayDef.__init__` (binary.py lines
186-201): `offset`/`stride` normalized to bits, `set`/`label` defaulted to
`name` when blank, and the resolved (or synthesized) structure schema.
`type` is spelled `atype` and `set` is spelled `aset` (keywords). -/
structure ArrayDef where
  name : String
  atype : String
  offset : Nat
  length : Nat
  stride : Nat
  aset : String
  label : String
  struct : StructDef
  deriving DecidableEq, Repr

/-- `ArrayDef.read` (binary.py lines 203-206), forced: the generator
yields `self.struct.read(stream, pos)` for each index, but `self.struct`
is a `StructDef`, which has no `read` method (only `Struct` instances do),
so producing the first element raises `AttributeError`.  An array of
length 0 yields nothing and never evaluates the broken body. -/
def ArrayDef.readAll (a : ArrayDef) : Except PyError (List Unit) :=
  if a.length = 0 then .ok [] else .error (.attributeError "StructDef" "read")

/-- `data = [array.read(stream) for array in arrays]` followed by the
forcing comprehension of binary.py lines 112-114, which iterates each
array's generator in order.  (Were an element ever produced, the body's
`item.struct_def.dereference_pointers(...)` would itself raise
`AttributeError` — `Struct` has neither attribute.) -/
def forceData : List ArrayDef → Except PyError (List (List Unit))
  | [] => .ok []
  | a :: rest =>
    match a.readAll with
    | .error e => .error e
    | .ok items =>
      match forceData rest with
      | .error e => .error e
      | .ok more => .ok (items :: more)

/-- The header loop of `RomMap.dump` (binary.py lines 127-133): its first
iteration evaluates `s.values()` on the set's first member's `StructDef`,
which has no `values` attribute, raising `AttributeError`.  With no member
arrays the loop body never runs and the header map stays empty. -/
def headerLoop (arrays : List ArrayDef) :
    Except PyError (List (String × String)) :=
  match arrays with
  | [] => .ok []
  | _ :: _ => .error (.attributeError "StructDef" "values")

/-- binary.py lines 136-138: find the first id whose label is `"Name"` and
move it to the front (`OrderedDict.move_to_end(name, False)`), keeping the
relative order of the rest. -/
def moveNameToFront (hm : List (String × String)) : List (String × String) :=
  match hm.find? StructDef.isname with
  | none => hm
  | some nm => nm :: hm.filter (fun pr => pr ≠ nm)

/-- `open(fname, mode)` with `mode = "w" if allow_overwrite else "x"`
(binary.py lines 100, 141-142): mode `"x"` raises `FileExistsError` when
the destination already exists; mode `"w"` truncates it. -/
def checkOpen (fname : String) (existing : List String)
    (allow_overwrite : Bool) : Except PyError Unit :=
  if allow_overwrite then .ok ()
  else if fname ∈ existing then .error .fileExistsError
  else .ok ()

/-- The body of `RomMap.dump`'s per-set loop (binary.py lines 107-146).
The merge of line 116 is unreachable with live data: any member of nonzero
length fails inside `forceData`, and otherwise every per-array element
list is empty, so `zip(*data)` is empty and `util.merge_dicts` is never
invoked (hence not modelled).  On success the produced file is the pair of
its name and its header row. -/
def dumpSet (entity : String) (arrays : List ArrayDef)
    (existing : List String) (allow_overwrite : Bool) :
    Except PyError (String × List (String × String)) :=
  match forceData arrays with
  | .error e => .error e
  | .ok _data =>
    match headerLoop arrays with
    | .error e => .error e
    | .ok hm =>
      let hm := moveNameToFront hm
      let fname := entity ++ ".csv"
      match checkOpen fname existing allow_overwrite with
      | .error e => .error e
      | .ok _ => .ok (fname, hm)

/-- `RomMap.dump` (binary.py lines 97-146): process the array sets in
order; a raised exception aborts the run, leaving the files written for
earlier sets in place.  The ROM bytes are accepted for fidelity
(`stream = ConstBitStream(rom)`, line 99) but no element read ever
completes, so they are never consumed. -/
def RomMap.dump (arraysets : List (String × List ArrayDef)) (_rom : List Nat)
    (allow_overwrite : Bool) (existing : List String) :
    List (String × List (String × String)) × Option PyError :=
  match arraysets with
  | [] => ([], none)
  | (entity, arrays) :: rest =>
    match dumpSet entity arrays existing allow_overwrite with
    | .error e => ([], some e)
    | .ok file =>
      let (files, err) := RomMap.dump rest _rom allow_overwrite existing
      (file :: files, err)

/-! Concrete schemas and arrays used to instantiate the theorems below. -/

/-- A one-field schema: `hp, HP, uint, 8`. -/
def c1S : StructDef := ⟨"monster", [⟨"hp", "HP", "uint", 8, ""⟩], []⟩

/-- A one-field schema: `hp, HP, uint, 16`. -/
def c2S : StructDef := ⟨"monster", [⟨"hp", "HP", "uint", 16, ""⟩], []⟩

/-- First member of the set `monsters`, whose schema owns the id `hp`. -/
def c4A : ArrayDef :=
  ⟨"monsters1", "monster", 0, 1, 16, "monsters", "monsters1",
    ⟨"monster", [⟨"hp", "HP", "uint", 16, ""⟩], []⟩⟩

/-- Second member of the set `monsters`, also owning the id `hp`. -/
def c4B : ArrayDef :=
  ⟨"monsters2", "monster2", 256, 1, 8, "monsters", "monsters2",
    ⟨"monster2", [⟨"hp", "HP2", "uint", 8, ""⟩], []⟩⟩

/-- A schema with no field labeled `Name`. -/
def c5noName : StructDef := ⟨"m", [⟨"hp", "HP", "uint", 16, ""⟩], []⟩

/-- A schema with two fields labeled `Name`. -/
def c5twoName : StructDef :=
  ⟨"m", [⟨"n1", "Name", "strz", 8, ""⟩, ⟨"n2", "Name", "strz", 8, ""⟩,
    ⟨"hp", "HP", "uint", 16, ""⟩], []⟩

/-- A schema whose Name-labeled field is declared second, plus a pointer. -/
def c5Named : StructDef :=
  ⟨"m", [⟨"hp", "HP", "uint", 16, ""⟩, ⟨"nm", "Name", "strz", 8, ""⟩],
    [⟨"*sptr", "SName", "strz", .bits 16, ""⟩]⟩

/-- A schema whose total storage width, 12 bits, is not a whole byte. -/
def c6S12 : StructDef := ⟨"oddbits", [⟨"flags", "Flags", "uint", 12, ""⟩], []⟩

/-- First member of the set `ents`; its schema has a Name-labeled field. -/
def c7A : ArrayDef :=
  ⟨"ents1", "ent", 0, 1, 8, "ents", "ents1",
    ⟨"ent", [⟨"nm", "Name", "strz", 8, ""⟩], []⟩⟩

/-- Second member of the set `ents`. -/
def c7B : ArrayDef :=
  ⟨"ents2", "ent2", 8, 1, 8, "ents", "ents2",
    ⟨"ent2", [⟨"mp", "MP", "uint", 8, ""⟩], []⟩⟩

/-- A zero-length array (its element generator yields nothing). -/
def c7C : ArrayDef :=
  ⟨"ents3", "ent3", 0, 0, 8, "ents3", "ents3",
    ⟨"ent3", [⟨"x", "X", "uint", 8, ""⟩], []⟩⟩

/-- A zero-length array in the set `monsters`. -/
def c8A : ArrayDef :=
  ⟨"monsters", "monster", 0, 0, 24, "monsters", "monsters",
    ⟨"monster", [⟨"hp", "HP", "uint", 16, ""⟩], []⟩⟩

/-- Raw descriptors with nonempty ids covering all three groups: a storage
field (`hp`), a pointer field (`*sptr`), and an ignored layout row
(`hp max`, neither alphanumeric nor starred). -/
def c9good : List FieldSpec :=
  [⟨"hp", "HP", "uint", .bits 16, ""⟩,
   ⟨"*sptr", "Name", "strz", .bits 16, ""⟩,
   ⟨"hp max", "HP Max", "uint", .bits 8, ""⟩]

/-! Helper lemmas. -/

/-- Summing eighth-parts of a list of naturals is an exact division of the
sum. -/
theorem sum_map_div_eight (l : List Nat) :
    (l.map (fun n : Nat => (n : ℚ) / 8)).sum = (l.sum : ℚ) / 8 := by
  induction l with
  | nil => simp
  | cons a t ih =>
    rw [List.map_cons, List.sum_cons, List.sum_cons, ih]
    push_cast
    ring

/-- On a field with a nonempty id, the pointer test returns its Boolean. -/
theorem ispointer_ok (f : FieldSpec) (h : f.id ≠ "") :
    StructDef.ispointer f = .ok (ispointerB f) := by
  unfold StructDef.ispointer ispointerB
  cases hid : f.id.data with
  | nil => exact absurd (String.ext (hid.trans rfl)) h
  | cons c cs => rfl

/-- The pointer comprehension raises `IndexError` as soon as it meets a
field with an empty id. -/
theorem filterPointers_empty_id (l : List FieldSpec) :
    (∃ f ∈ l, f.id = "") → filterPointers l = .error .indexError := by
  induction l with
  | nil => rintro ⟨f, hf, -⟩; exact absurd hf (List.not_mem_nil f)
  | cons g t ih =>
    rintro ⟨f, hf, hide⟩
    by_cases hg : g.id = ""
    · have hptr : StructDef.ispointer g = .error .indexError := by
        unfold StructDef.ispointer
        rw [show g.id.data = [] from by rw [hg]]
      simp [filterPointers, hptr]
    · have hft : ∃ f ∈ t, f.id = "" := by
        rcases List.mem_cons.mp hf with rfl | hmem
        · exact absurd hide hg
        · exact ⟨f, hmem, hide⟩
      simp [filterPointers, ispointer_ok g hg, ih hft]

/-- With nonempty ids the pointer comprehension is the plain filter. -/
theorem filterPointers_ok (l : List FieldSpec) (h : ∀ f ∈ l, f.id ≠ "") :
    filterPointers l = .ok (l.filter ispointerB) := by
  induction l with
  | nil => rfl
  | cons g t ih =>
    have hg := h g (List.mem_cons_self g t)
    have ht : ∀ f ∈ t, f.id ≠ "" := fun f hf => h f (List.mem_cons_of_mem g hf)
    simp only [filterPointers, ispointer_ok g hg, ih ht, List.filter_cons]

/-- The only error `forceData` can produce is the missing `read` method. -/
theorem forceData_error (l : List ArrayDef) (e : PyError) :
    forceData l = .error e → e = .attributeError "StructDef" "read" := by
  induction l with
  | nil => intro h; simp [forceData] at h
  | cons a t ih =>
    intro h
    unfold forceData at h
    by_cases hl : a.length = 0
    · rw [show a.readAll = .ok [] from by simp [ArrayDef.readAll, hl]] at h
      cases hfd : forceData t with
      | error e2 =>
        rw [hfd] at h
        injection h with h2
        subst h2
        exact ih hfd
      | ok more => rw [hfd] at h; simp at h
    · rw [show a.readAll = .error (.attributeError "StructDef" "read") from by
        simp [ArrayDef.readAll, hl]] at h
      injection h with h2
      exact h2.symm

/-- Dumping a set with at least one member array always raises one of the
two `AttributeError`s before any file is opened. -/
theorem dumpSet_error (entity : String) (a : ArrayDef) (t : List ArrayDef)
    (existing : List String) (ow : Bool) :
    dumpSet entity (a :: t) existing ow
        = .error (.attributeError "StructDef" "read")
    ∨ dumpSet entity (a :: t) existing ow
        = .error (.attributeError "StructDef" "values") := by
  unfold dumpSet
  cases hfd : forceData (a :: t) with
  | error e =>
    left
    rw [forceData_error _ _ hfd]
  | ok d =>
    right
    simp [headerLoop]

/-- Folding a value below the 4 MiB base into the C0-FF mirror and back
changes nothing: the mirror bits lie entirely above bit 21. -/
theorem mod_lor_mirror (x : Nat) (hx : x < 0x400000) :
    (x ||| 0xC00000) % 0x400000 = x := by
  have h22 : (0x400000 : Nat) = 2 ^ 22 := by norm_num
  apply Nat.eq_of_testBit_eq
  intro i
  rw [h22, Nat.testBit_mod_two_pow]
  by_cases hi : i < 22
  · have hc : Nat.testBit 0xC00000 i = false := by
      have hm := Nat.testBit_mod_two_pow 0xC00000 22 i
      rw [show (0xC00000 : Nat) % 2 ^ 22 = 0 from by norm_num] at hm
      simpa [hi] using hm.symm
    simp [hi, Nat.testBit_or, hc]
  · have hxi : Nat.testBit x i = false :=
      Nat.testBit_lt_two_pow
        (lt_of_lt_of_le (h22 ▸ hx) (Nat.pow_le_pow_right (by norm_num) (le_of_not_lt hi)))
    simp [hi, hxi]

/-! Claim theorems. -/

/-- C3 (confirmed): for every 24-bit value constructed as an offset the
pointer form is `N | 0xC00000`, and for every 24-bit value constructed as
a (hirom) pointer the offset form is `M % 0x400000`.  Both constructions
succeed (`.ok`), so the conversions are total on these two schemas. -/
theorem c3_address_symmetry (N M : Nat) (hN : N < 2 ^ 24) (hM : M < 2 ^ 24) :
    (Address.init N "offset").map Address.hirom = .ok (N ||| 0xC00000)
    ∧ (Address.init M "hirom").map Address.rom = .ok (M % 0x400000) :=
  ⟨rfl, rfl⟩

/-- C3 witness: the symmetry at the concrete 24-bit values `0x123456`
(offset) and `0xC12345` (pointer). -/
theorem c3_witness :
    (Address.init 0x123456 "offset").map Address.hirom
        = .ok (0x123456 ||| 0xC00000)
    ∧ (Address.init 0xC12345 "hirom").map Address.rom
        = .ok (0xC12345 % 0x400000) :=
  c3_address_symmetry 0x123456 0xC12345 (by norm_num) (by norm_num)

/-- C10 (confirmed): pointer→offset→pointer yields
`(M % 0x400000) | 0xC00000`; the conversion pair is idempotent; and at the
mirror pointer `0x808000` the result `0xC08000` differs from the input, so
the pair is not a round trip on the full pointer space. -/
theorem c10_pointer_canonicalization :
    (∀ M : Nat, Address.hirom ⟨Address._from_hirom M⟩
        = (M % 0x400000) ||| 0xC00000)
    ∧ (∀ M : Nat,
        Address.hirom ⟨Address._from_hirom (Address.hirom ⟨Address._from_hirom M⟩)⟩
          = Address.hirom ⟨Address._from_hirom M⟩)
    ∧ Address.hirom ⟨Address._from_hirom 0x808000⟩ ≠ 0x808000 := by
  refine ⟨fun M => rfl, fun M => ?_, by decide⟩
  show (((M % 0x400000) ||| 0xC00000) % 0x400000) ||| 0xC00000
      = (M % 0x400000) ||| 0xC00000
  rw [mod_lor_mirror _ (Nat.mod_lt _ (by norm_num))]

/-- C1 (code_bug): the round-trip law can never hold because `Struct.read`
raises `NameError` on every call — the body refers to `bitstream` while
the parameter is named `stream` (binary.py line 244).  Serialization
itself works: `to_bytes` on the valid assignment `hp = 5` for the one-byte
schema yields the byte `0x05`, but reading those bytes back crashes. -/
theorem c1_round_trip_broken :
    Struct.to_bytes c1S [("hp", 5)] = .ok [5]
    ∧ (∀ (stream : List Nat) (offset : Option Nat),
        Struct.read c1S stream offset = .error (.nameError "bitstream")) :=
  ⟨rfl, fun _ _ => rfl⟩

/-- C2 counterexample: the claim expects
`changeset({hp: "100"}, 0) = {0 ↦ 0x00, 1 ↦ 0x64}` (two contiguous keys)
for a 16-bit one-field schema, but the call raises `TypeError` because the
loop body's `self[fid]` subscripts the `StructDef`, which defines no
`__getitem__` (binary.py line 363). -/
theorem c2_counterexample :
    StructDef.changeset c2S [("hp", "100")] 0
      = .error (.typeError "StructDef object is not subscriptable") :=
  rfl

/-- C2 (corrected): `changeset` raises `TypeError` for every nonempty
assignment, at every offset and for every schema; only the empty
assignment survives, producing the empty byte map rather than
`ceil(bitWidth/8)` keys. -/
theorem c2_amended_changeset (σ : StructDef) (item : List (String × String))
    (offset : Nat) :
    (item ≠ [] → StructDef.changeset σ item offset
        = .error (.typeError "StructDef object is not subscriptable"))
    ∧ StructDef.changeset σ [] offset = .ok [] := by
  constructor
  · intro h
    cases item with
    | nil => exact absurd rfl h
    | cons a t => rfl
  · rfl

/-- C2 witness: the amended behavior at a concrete schema, assignment and
offset. -/
theorem c2_witness :
    StructDef.changeset c2S [("hp", "100")] 42
      = .error (.typeError "StructDef object is not subscriptable") :=
  (c2_amended_changeset c2S [("hp", "100")] 42).1 (List.cons_ne_nil _ _)

/-- C4 (code_bug): two member arrays of the set `monsters` both declare
the storage id `hp`, yet `dump` raises
`AttributeError: 'StructDef' object has no attribute 'read'` while
iterating the first array's elements — before the merge, so the
overlap-reporting `RomMapError` of binary.py lines 115-120 (set name plus
overlapping ids) is dead code, and no output file is produced. -/
theorem c4_dump_overlap_unreachable :
    ("hp" ∈ c4A.struct.fields.map Field.id
      ∧ "hp" ∈ c4B.struct.fields.map Field.id
      ∧ c4A.aset = c4B.aset)
    ∧ RomMap.dump [("monsters", [c4A, c4B])] [] false []
        = ([], some (.attributeError "StructDef" "read")) :=
  ⟨⟨by decide, by decide, rfl⟩, rfl⟩

/-- C5 counterexample: a schema with no Name-labeled field makes
`_output_fields` raise `StopIteration` (the `next` on line 332 has no
default) instead of returning the storage-then-pointer list; and with two
Name-labeled fields the second (`n2`) is dropped from the output entirely
rather than kept among the remaining fields. -/
theorem c5_counterexample :
    StructDef.output_fields c5noName = none
    ∧ StructDef.output_fields c5twoName = some [("n1", "Name"), ("hp", "HP")] :=
  ⟨rfl, rfl⟩

/-- C5 (corrected): for every schema with no Name-labeled field the
method raises `StopIteration`; and for every schema in which some field
is labeled `Name`, the emitted head is the first Name-labeled entry of
the storage-then-pointer field sequence — every entry before it in that
sequence is not labeled `Name` (first match wins, storage fields searched
before pointer fields) — followed by the storage fields not labeled
`Name` in declaration order, then the pointer fields not labeled `Name`
in declaration order. -/
theorem c5_amended_output_order (σ : StructDef) :
    ((∀ pr ∈ σ.allpairs, pr.2 ≠ "Name") → σ.output_fields = none)
    ∧ ((∃ pr ∈ σ.allpairs, pr.2 = "Name") →
        ∃ nm l1 l2, σ.allpairs = l1 ++ nm :: l2
          ∧ nm.2 = "Name"
          ∧ (∀ pr ∈ l1, pr.2 ≠ "Name")
          ∧ σ.output_fields = some (nm ::
              ((σ.fields.map fieldPair).filter (fun pr => !StructDef.isname pr)
                ++ (σ.pointers.map specPair).filter (fun pr => !StructDef.isname pr)))) := by
  constructor
  · intro h
    have hnone : σ.allpairs.find? StructDef.isname = none :=
      List.find?_eq_none.mpr
        (fun pr hpr => by simpa [StructDef.isname] using h pr hpr)
    simp [StructDef.output_fields, hnone]
  · rintro ⟨pr, hmem, hlab⟩
    have hsome : (σ.allpairs.find? StructDef.isname).isSome :=
      List.find?_isSome.mpr ⟨pr, hmem, by simp [StructDef.isname, hlab]⟩
    obtain ⟨nm, hfind⟩ := Option.isSome_iff_exists.mp hsome
    obtain ⟨hp, l1, l2, hsplit, hbefore⟩ := List.find?_eq_some.mp hfind
    refine ⟨nm, l1, l2, hsplit, ?_, ?_, ?_⟩
    · simpa [StructDef.isname] using hp
    · intro q hq
      simpa [StructDef.isname] using hbefore q hq
    · simp [StructDef.output_fields, hfind]

/-- C5 witness: on a schema declaring `hp` first, a Name-labeled `nm`
second and a pointer `*sptr`, the Name field is moved to the front. -/
theorem c5_witness :
    StructDef.output_fields c5Named
      = some [("nm", "Name"), ("hp", "HP"), ("*sptr", "SName")] := by
  obtain ⟨nm, l1, l2, hsplit, hname, hbefore, hout⟩ :=
    (c5_amended_output_order c5Named).2 ⟨("nm", "Name"), by decide, rfl⟩
  have hval : StructDef.output_fields c5Named
      = some [("nm", "Name"), ("hp", "HP"), ("*sptr", "SName")] := rfl
  exact hval

/-- C6 counterexample: a schema of one 12-bit field has
`bytes = 12/8 = 3/2`, not the claimed `ceil(12/8) = 2` — the property uses
Python 3 true division and never rounds up. -/
theorem c6_counterexample :
    StructDef.bits c6S12 = 12 ∧ StructDef.bytes c6S12 = 3 / 2
    ∧ StructDef.bytes c6S12 ≠ 2 := by
  refine ⟨rfl, ?_, ?_⟩ <;> norm_num [StructDef.bytes, c6S12]

/-- C6 (corrected): `bits` is the sum of the storage fields' declared
widths and ignores the pointer fields entirely, and `bytes` is the exact
quotient `bits / 8` — fractional when the total is not byte-aligned. -/
theorem c6_amended_widths (σ : StructDef) :
    StructDef.bits σ = (σ.fields.map Field.size).sum
    ∧ StructDef.bytes σ = (StructDef.bits σ : ℚ) / 8
    ∧ (∀ ps : List FieldSpec,
        StructDef.bits ⟨σ.name, σ.fields, ps⟩ = StructDef.bits σ) := by
  refine ⟨rfl, ?_, fun ps => rfl⟩
  unfold StructDef.bytes StructDef.bits
  rw [← sum_map_div_eight, List.map_map]
  rfl

/-- C6 witness: the amended width laws at the concrete 12-bit schema. -/
theorem c6_witness :
    StructDef.bits c6S12 = 12
    ∧ StructDef.bytes c6S12 = (StructDef.bits c6S12 : ℚ) / 8 :=
  ⟨(c6_amended_widths c6S12).1, (c6_amended_widths c6S12).2.1⟩

/-- C7 counterexample: for a two-array set declaring distinct field ids
(one labeled `Name`), `dump` never builds a header at all — it raises
`AttributeError` while reading the first array's elements, and no output
file is produced. -/
theorem c7_counterexample :
    RomMap.dump [("ents", [c7A, c7B])] [] true []
      = ([], some (.attributeError "StructDef" "read")) :=
  rfl

/-- C7 (corrected): `dump` never constructs an output header.  For every
arrayset list whose first set has at least one member, `dump` writes no
file and raises `AttributeError` — for the missing `StructDef.read` if
some member has nonzero length, otherwise for the missing
`StructDef.values` in the header loop itself. -/
theorem c7_amended_no_header (entity : String) (arrays : List ArrayDef)
    (rest : List (String × List ArrayDef)) (rom : List Nat) (ow : Bool)
    (existing : List String) (h : arrays ≠ []) :
    (RomMap.dump ((entity, arrays) :: rest) rom ow existing).1 = []
    ∧ ((RomMap.dump ((entity, arrays) :: rest) rom ow existing).2
          = some (.attributeError "StructDef" "read")
      ∨ (RomMap.dump ((entity, arrays) :: rest) rom ow existing).2
          = some (.attributeError "StructDef" "values")) := by
  obtain ⟨a, t, rfl⟩ : ∃ a t, arrays = a :: t := by
    cases arrays with
    | nil => exact absurd rfl h
    | cons a t => exact ⟨a, t, rfl⟩
  rcases dumpSet_error entity a t existing ow with hd | hd <;>
    simp [RomMap.dump, hd]

/-- C7 witness: the amended behavior on a concrete one-member set (of a
zero-length array, exercising the header-loop error). -/
theorem c7_witness :
    (RomMap.dump [("ents3", [c7C])] [] false []).1 = []
    ∧ ((RomMap.dump [("ents3", [c7C])] [] false []).2
          = some (.attributeError "StructDef" "read")
      ∨ (RomMap.dump [("ents3", [c7C])] [] false []).2
          = some (.attributeError "StructDef" "values")) :=
  c7_amended_no_header "ents3" [c7C] [] [] false [] (List.cons_ne_nil _ _)

/-- C8 (code_bug): with the destination `monsters.csv` already present and
overwrite not requested, `dump` raises `AttributeError` in the header loop
— before `open(fname, mode)` — so the claimed `FileExistsError` never
occurs.  The mode logic itself (binary.py lines 100, 141-142), embedded as
`checkOpen`, would behave as claimed were it reached: the existing file
raises with overwrite off and is replaced with overwrite on. -/
theorem c8_overwrite_check_unreachable :
    RomMap.dump [("monsters", [c8A])] [] false ["monsters.csv"]
      = ([], some (.attributeError "StructDef" "values"))
    ∧ checkOpen "monsters.csv" ["monsters.csv"] false = .error .fileExistsError
    ∧ checkOpen "monsters.csv" ["monsters.csv"] true = .ok () := by
  refine ⟨rfl, ?_, rfl⟩
  simp [checkOpen]

/-- C9 counterexample: a descriptor list whose ids are all nonempty (the
claimed precondition for totality) still never yields a `StructDef`:
line 309 raises `NameError` because `namedtuple` is not imported. -/
theorem c9_counterexample :
    StructDef.make "monster" c9good = .error (.nameError "namedtuple") :=
  rfl

/-- C9 (corrected): any field descriptor with an empty id makes the
partition raise `IndexError` (the pointer test reads `id[0]`); when every
id is nonempty the partition phase completes and assigns every field to
exactly one of the pointer / storage / ignored groups (pointer and storage
are disjoint because a leading `*` is not alphanumeric) — but `StructDef`
construction still never succeeds: it then raises
`NameError: namedtuple`. -/
theorem c9_amended_partiality (fields : List FieldSpec) :
    ((∃ f ∈ fields, f.id = "") →
        StructDef.partitionFields fields = .error .indexError)
    ∧ ((∀ f ∈ fields, f.id ≠ "") →
        StructDef.partitionFields fields
          = .ok (fields.filter ispointerB,
              (fields.filter StructDef.isdata).map normalizeField)
        ∧ (∀ f ∈ fields, ¬(ispointerB f = true ∧ StructDef.isdata f = true))
        ∧ (∀ name : String,
            StructDef.make name fields = .error (.nameError "namedtuple"))) := by
  constructor
  · intro h
    unfold StructDef.partitionFields
    rw [filterPointers_empty_id fields h]
  · intro h
    have hpart : StructDef.partitionFields fields
        = .ok (fields.filter ispointerB,
            (fields.filter StructDef.isdata).map normalizeField) := by
      unfold StructDef.partitionFields
      rw [filterPointers_ok fields h]
    refine ⟨hpart, ?_, ?_⟩
    · rintro f hf ⟨hp, hd⟩
      unfold ispointerB at hp
      unfold StructDef.isdata pyIsAlnum at hd
      cases hid : f.id.data with
      | nil => rw [hid] at hp; simp at hp
      | cons c cs =>
        rw [hid] at hp hd
        have hc : c = '*' := by simpa using hp
        subst hc
        simp [List.all_cons] at hd
    · intro name
      simp [StructDef.make, hpart]

/-- C9 witness: the partition at a concrete descriptor list with a storage
field, a pointer field and an ignored layout row. -/
theorem c9_witness :
    StructDef.partitionFields c9good
      = .ok ([⟨"*sptr", "Name", "strz", .bits 16, ""⟩],
          [⟨"hp", "HP", "uint", 16, ""⟩]) :=
  ((c9_amended_partiality c9good).2 (by decide)).1

end Romlib
